import Mathlib

/-!
Shallow embedding of the sensor wrapper layer of the energy-benchmark
repository: the pmt wrapper (src/sensors/pmt/src/wrapper/wrapper.cc) and the
powersensor3 wrapper (src/sensors/powersensor3/src/wrapper/wrapper.cc).

Machine doubles are modelled as rationals; C++ exceptions thrown across the
bridge are modelled with Except, tagged by the error taxonomy of the design
document (section 7). Vendor-library pieces (the pmt State accessors,
PMT::seconds, rapl::Rapl::Create) are modelled structurally where their
behaviour is fixed by the design document, and abstractly otherwise.
-/

namespace EnergyBenchmark

/-- One named energy rail with a cumulative joule reading
(vendor pmt measurement pair). -/
structure MeasurementPair where
  name : String
  joules : ℚ
  deriving DecidableEq, Repr

instance : Inhabited MeasurementPair := ⟨⟨"", 0⟩⟩

/-- A sensor snapshot: an ordered sequence of measurement pairs plus a
timestamp (vendor pmt State). -/
structure State where
  measurements : List MeasurementPair
  timestamp : ℚ
  deriving DecidableEq, Repr

/-- Channel count of a snapshot (vendor State::NrMeasurements). -/
def State.NrMeasurements (s : State) : Nat := s.measurements.length

/-- Joule reading of channel i (vendor State::joules(int)). Out-of-range
access is not defined by the vendor library; the model returns a default. -/
def State.joulesAt (s : State) (i : Nat) : ℚ :=
  (s.measurements.getD i default).joules

/-- Name of channel i (vendor State::name(int)). -/
def State.nameAt (s : State) (i : Nat) : String :=
  (s.measurements.getD i default).name

/-- Error outcomes crossing the bridge: a single textual message, tagged here
by the taxonomy of section 7 of the design document. -/
inductive PmtError where
  | invalidChannelIndex (msg : String)
  | unsupportedSensorType (msg : String)
  | divisionByNonPositiveInterval (msg : String)
  deriving DecidableEq, Repr

/-- The accumulation loop `for (int i = 0; i < s.NrMeasurements(); i++)`
over the joule readings of a single snapshot (wrapper.cc lines 35-42). -/
def sumJoules (s : State) : ℚ :=
  ∑ i in Finset.range s.NrMeasurements, s.joulesAt i

/-- wrapper.cc lines 26-44 (pmt). The guard at lines 27-29 constructs a
std::runtime_error value without throwing it when
pairID > firstState.NrMeasurements(); the constructed value is discarded, so
the guard has no observable effect and is recorded here only by this comment. -/
def Joules (firstState secondState : State) (pairID : ℤ) : Except PmtError ℚ :=
  if 0 ≤ pairID then
    Except.ok (secondState.joulesAt pairID.toNat - firstState.joulesAt pairID.toNat)
  else
    Except.ok (sumJoules secondState - sumJoules firstState)

/-- Modelled from the spec: PMT::seconds lives in the external pmt vendor
library, not under src/. Section 4.5 of the design document fixes it as
seconds(start, end) = end.timestamp - start.timestamp. -/
def seconds (firstState secondState : State) : ℚ :=
  secondState.timestamp - firstState.timestamp

/-- wrapper.cc lines 46-49 (pmt): the Joules result divided by
PMT::seconds, with no check of the interval. Division on rationals is total
with q / 0 = 0, standing in for the non-error IEEE result (infinity or NaN);
no error outcome is produced on a non-positive interval. -/
def Watt (firstState secondState : State) (pairID : ℤ) : Except PmtError ℚ :=
  (Joules firstState secondState pairID).map
    (fun j => j / seconds firstState secondState)

/-- wrapper.cc lines 51-53 (pmt). -/
def watts (first second : State) (sensor_id : ℤ) : Except PmtError ℚ :=
  Watt first second sensor_id

/-- Modelled from the spec: SensorType is only forward-declared in
wrapper.hpp (enum class SensorType: uint8_t); its variants are defined on the
other side of the language bridge, not under src/. Section 4.1 describes a
closed extensible selector set; the pmt wrapper recognizes RAPL and rejects
every other tag, so the model keeps RAPL and an arbitrary family of other
tags. -/
inductive SensorType where
  | RAPL
  | otherTag (tag : Nat)
  deriving DecidableEq, Repr

/-- An owned live pmt backend handle. rapl::Rapl::Create() is vendor code and
is modelled as an abstract live RAPL backend value. -/
inductive PMTBackend where
  | rapl
  deriving DecidableEq, Repr

/-- wrapper.cc lines 6-13 (pmt): type-tagged switch, RAPL recognized, the
default branch throws ("Unknown sensor type"). -/
def create (sensor : SensorType) : Except PmtError PMTBackend :=
  match sensor with
  | SensorType.RAPL => Except.ok PMTBackend.rapl
  | SensorType.otherTag _ =>
      Except.error (PmtError.unsupportedSensorType "Unknown sensor type")

/-- A pmt device handle; Read models PMT::Read() producing a fresh snapshot
(deterministic in this embedding, per the stability invariant of section 4.2). -/
structure PMTDevice where
  Read : State

/-- wrapper.cc lines 19-24 (pmt): negative index throws
("Invalid sensor id"); otherwise a fresh full read is taken and indexed for
the channel name. -/
def get_sensor_name (device : PMTDevice) (sensor_id : ℤ) : Except PmtError String :=
  if sensor_id < 0 then
    Except.error (PmtError.invalidChannelIndex "Invalid sensor id")
  else
    Except.ok ((device.Read).nameAt sensor_id.toNat)

/-! Concrete snapshots used as witnesses; the two-channel pair is the scenario
of section 8 of the design document. -/

/-- Two-channel start snapshot: pkg = 100 J, dram = 50 J, t = 0 s. -/
def exStart : State := ⟨[⟨"pkg", 100⟩, ⟨"dram", 50⟩], 0⟩

/-- Two-channel end snapshot: pkg = 150 J, dram = 55 J, t = 2 s. -/
def exEnd : State := ⟨[⟨"pkg", 150⟩, ⟨"dram", 55⟩], 2⟩

/-- A one-channel snapshot, for mismatched channel counts. -/
def exOne : State := ⟨[⟨"pkg", 7⟩], 5⟩

/-- A device whose reads produce the two-channel snapshot. -/
def exDevice : PMTDevice := ⟨exStart⟩

/-- C1: for snapshots with matching channel counts and a selector k with
0 <= k < NrMeasurements, Joules returns the per-channel difference of the end
reading minus the start reading; the subtraction is returned as computed, so a
negative result is surfaced as-is. -/
theorem C1_single_channel_delta (start finish : State) (k : ℕ)
    (hc : start.NrMeasurements = finish.NrMeasurements)
    (hk : k < finish.NrMeasurements) :
    Joules start finish (k : ℤ) =
      Except.ok (finish.joulesAt k - start.joulesAt k) := by
  simp [Joules]

/-- C1 witness: at the section-8 scenario with the snapshots out of order,
channel 0 yields the negative delta -50, returned as computed. -/
theorem C1_witness : Joules exEnd exStart 0 = Except.ok (-50) :=
  (C1_single_channel_delta exEnd exStart 0 (by decide) (by decide)).trans
    (congrArg Except.ok (by norm_num [exStart, exEnd, State.joulesAt]))

/-- C2: every negative selector (not only -1) selects aggregate mode: the sum
of all channels of the end snapshot minus the sum of all channels of the start
snapshot. -/
theorem C2_aggregate_any_negative (start finish : State) (sel : ℤ)
    (hneg : sel < 0) :
    Joules start finish sel = Except.ok (sumJoules finish - sumJoules start) := by
  simp [Joules, not_le.mpr hneg]

/-- C2 witness: selector -5 on the section-8 scenario still aggregates,
giving (150 + 55) - (100 + 50) = 55. -/
theorem C2_witness : Joules exStart exEnd (-5) = Except.ok 55 := by
  have h := C2_aggregate_any_negative exStart exEnd (-5) (by decide)
  rw [h]
  norm_num [sumJoules, exStart, exEnd, State.NrMeasurements, State.joulesAt,
    Finset.sum_range_succ]

/-- C3: contrary to the claim, a selector exactly equal to NrMeasurements
(the first out-of-range index, here 2 on the two-channel scenario) is not
rejected: Joules returns a success value and in particular never signals
InvalidChannelIndex, because the guard compares with strict greater-than
against the first snapshot and the constructed error is never thrown. -/
theorem C3_selector_at_count_not_rejected :
    (Joules exStart exEnd 2).isOk = true ∧
    ∀ msg, Joules exStart exEnd 2 ≠
      Except.error (PmtError.invalidChannelIndex msg) := by
  constructor
  · rfl
  · intro msg h
    simp [Joules] at h

/-- C4 counterexample: on two snapshots with the same timestamp the elapsed
interval is 0, yet Watt returns a success value instead of signalling
DivisionByNonPositiveInterval. -/
theorem C4_counterexample :
    seconds exOne exOne ≤ 0 ∧ (Watt exOne exOne 0).isOk = true ∧
    ∀ msg, Watt exOne exOne 0 ≠
      Except.error (PmtError.divisionByNonPositiveInterval msg) := by
  refine ⟨by norm_num [seconds], rfl, ?_⟩
  intro msg h
  simp [Watt, Joules, Except.map] at h

/-- C4 amended: Watt is the Joules result divided by seconds, with no
validation of the interval: whenever Joules succeeds, Watt succeeds with the
raw quotient, also when seconds is zero or negative (where the totalized
rational division stands in for the non-error IEEE quotient). -/
theorem C4_watt_is_unchecked_quotient (first second : State) (sel : ℤ) (j : ℚ)
    (h : Joules first second sel = Except.ok j) :
    Watt first second sel = Except.ok (j / seconds first second) := by
  simp [Watt, h, Except.map]

/-- C4 witness: aggregate watts on the section-8 scenario: 55 J over 2 s is
27.5 W. -/
theorem C4_witness : Watt exStart exEnd (-1) = Except.ok (55 / 2) := by
  have h := C4_watt_is_unchecked_quotient exStart exEnd (-1) 55
    (by norm_num [Joules, sumJoules, exStart, exEnd, State.NrMeasurements,
      State.joulesAt, Finset.sum_range_succ])
  rw [h]
  norm_num [seconds, exStart, exEnd]

/-- C5: the out-of-range validation path of Joules is swallowed (the error is
constructed, never propagated) and the bound uses strict greater-than, so a
selector equal to the count passes the check; for every selector at or above
first.NrMeasurements the function proceeds and returns a success value,
raising no validation error outcome. -/
theorem C5_validation_error_swallowed (first second : State) (sel : ℤ)
    (hge : (first.NrMeasurements : ℤ) ≤ sel) :
    (Joules first second sel).isOk = true := by
  unfold Joules
  split <;> rfl

/-- C5 witness: selector 3, strictly greater than the channel count 2 of the
first snapshot, still yields a success value. -/
theorem C5_witness : (Joules exStart exEnd 3).isOk = true :=
  C5_validation_error_swallowed exStart exEnd 3 (by decide)

/-- C6: the factory returns an owned live RAPL backend for the RAPL tag and
fails with UnsupportedSensorType for every other tag, never falling back to a
default backend. -/
theorem C6_factory_no_fallback :
    create SensorType.RAPL = Except.ok PMTBackend.rapl ∧
    ∀ t : Nat, create (SensorType.otherTag t) =
      Except.error (PmtError.unsupportedSensorType "Unknown sensor type") :=
  ⟨rfl, fun _ => rfl⟩

/-- C7: channel-name lookup fails with InvalidChannelIndex exactly when the
index is negative, and for a non-negative index it takes a fresh full read of
the device and indexes the resulting snapshot for the channel name. -/
theorem C7_channel_name_lookup (device : PMTDevice) (sensor_id : ℤ) :
    ((∃ msg, get_sensor_name device sensor_id =
        Except.error (PmtError.invalidChannelIndex msg)) ↔ sensor_id < 0) ∧
    (0 ≤ sensor_id →
      get_sensor_name device sensor_id =
        Except.ok ((device.Read).nameAt sensor_id.toNat)) := by
  refine ⟨⟨?_, ?_⟩, ?_⟩
  · rintro ⟨msg, h⟩
    by_contra hq
    simp [get_sensor_name, hq] at h
  · intro h
    exact ⟨"Invalid sensor id", by simp [get_sensor_name, h]⟩
  · intro h
    simp [get_sensor_name, not_lt.mpr h]

/-- C7 witness: on the concrete device, index 1 resolves to the dram channel
of the fresh read and index -1 fails with InvalidChannelIndex. -/
theorem C7_witness :
    get_sensor_name exDevice 1 = Except.ok "dram" ∧
    (∃ msg, get_sensor_name exDevice (-1) =
      Except.error (PmtError.invalidChannelIndex msg)) := by
  refine ⟨?_, ((C7_channel_name_lookup exDevice (-1)).1).mpr (by decide)⟩
  have h := (C7_channel_name_lookup exDevice 1).2 (by decide)
  rw [h]
  simp [exDevice, exStart, State.nameAt]

/-- C8: on snapshots with matching channel counts, the aggregate-mode result
is exactly the sum of the single-channel deltas: there is a family f of
per-channel values with Joules a b i = ok (f i) for every in-range i and
Joules a b (-1) = ok of the sum of f over all channels. -/
theorem C8_aggregate_is_sum_of_deltas (a b : State)
    (hc : a.NrMeasurements = b.NrMeasurements) :
    ∃ f : ℕ → ℚ,
      (∀ i, i < b.NrMeasurements → Joules a b (i : ℤ) = Except.ok (f i)) ∧
      Joules a b (-1) =
        Except.ok (∑ i in Finset.range b.NrMeasurements, f i) := by
  refine ⟨fun i => b.joulesAt i - a.joulesAt i, fun i _ => by simp [Joules], ?_⟩
  have hagg : Joules a b (-1) = Except.ok (sumJoules b - sumJoules a) := by
    simp [Joules]
  rw [hagg]
  congr 1
  have hc' : a.measurements.length = b.measurements.length := hc
  simp only [Finset.sum_sub_distrib, sumJoules, State.NrMeasurements, hc']

/-- C8 witness: the section-8 scenario instantiates the decomposition, the
channel counts being equal. -/
theorem C8_witness :
    ∃ f : ℕ → ℚ,
      (∀ i, i < exEnd.NrMeasurements →
        Joules exStart exEnd (i : ℤ) = Except.ok (f i)) ∧
      Joules exStart exEnd (-1) =
        Except.ok (∑ i in Finset.range exEnd.NrMeasurements, f i) :=
  C8_aggregate_is_sum_of_deltas exStart exEnd (by decide)

/-- C9: comparing a snapshot with itself yields a zero energy delta for every
valid selector, negative (aggregate) or in-range non-negative. -/
theorem C9_reflexive_zero (s : State) (k : ℤ)
    (hvalid : k < 0 ∨ (0 ≤ k ∧ k.toNat < s.NrMeasurements)) :
    Joules s s k = Except.ok 0 := by
  unfold Joules
  split <;> simp

/-- C9 witness: aggregate selector on the start snapshot against itself. -/
theorem C9_witness : Joules exStart exStart (-1) = Except.ok 0 :=
  C9_reflexive_zero exStart (-1) (Or.inl (by decide))

/-- C10: aggregate mode sums each snapshot over its own channel count with no
equality check between the two counts: for mismatched counts it still returns
the numeric difference of the two independent sums, never an error. -/
theorem C10_aggregate_no_count_check (a b : State) (sel : ℤ)
    (hmm : a.NrMeasurements ≠ b.NrMeasurements) (hneg : sel < 0) :
    Joules a b sel = Except.ok (sumJoules b - sumJoules a) := by
  simp [Joules, not_le.mpr hneg]

/-- C10 witness: a one-channel start against a two-channel end still yields a
numeric aggregate, (150 + 55) - 7 = 198. -/
theorem C10_witness : Joules exOne exEnd (-1) = Except.ok 198 := by
  have h := C10_aggregate_no_count_check exOne exEnd (-1) (by decide) (by decide)
  rw [h]
  norm_num [sumJoules, exOne, exEnd, State.NrMeasurements, State.joulesAt,
    Finset.sum_range_succ]

end EnergyBenchmark
